import Mathlib

/-!
Verification development for the medical appointment booking backend
(src/Backend/main.py).  The Python source is shallowly embedded below:
pure helpers (slot finder, type recommender) become Lean functions, the
stateful chat endpoint becomes an explicit state-passing function, and
the two external LLM calls (intent analysis, response generation) are
modelled as parameters, since the orchestrator treats them as opaque
oracles.  Python string values are Lean `String`, and the Python string
methods used by the source (`lower`, `in` substring test, `int(...)`,
`split(":")[0]`, `strip` inside `int`) are re-implemented over
`String.data` so that every definition evaluates inside the kernel.
Python truthiness of optional strings (None and "" are falsy) and of
dicts (empty dict is falsy) is made explicit.
-/

namespace Booker

/-- Python `str.lower()` (ASCII case folding, which covers every string
the source compares). -/
def pyLower (s : String) : String := ⟨s.data.map Char.toLower⟩

/-- Python truthiness of an optional string: `None` and `""` are falsy. -/
def optStrTruthy : Option String → Bool
  | none => false
  | some s => s != ""

/-- Does `pat` occur as a prefix of `l`?  Helper for the Python `in`
substring test. -/
def prefixAt : List Char → List Char → Bool
  | [], _ => true
  | _ :: _, [] => false
  | a :: as, b :: bs => a == b && prefixAt as bs

/-- Does `pat` occur as a contiguous run inside `l`? -/
def occursIn (pat : List Char) : List Char → Bool
  | [] => pat.isEmpty
  | c :: rest => prefixAt pat (c :: rest) || occursIn pat rest

/-- Python `needle in hay` on strings: substring containment. -/
def pyIn (needle hay : String) : Bool := occursIn needle.data hay.data

/-- Python `int(s)` on a string: surrounding whitespace is stripped, an
optional single sign is accepted, and the rest must be decimal digits
(the source only ever parses `"HH"` hour prefixes, so the underscore
digit separators Python also tolerates are not modelled).  `none`
models a raised `ValueError`. -/
def pythonInt (s : String) : Option Int :=
  let t := (s.data.dropWhile Char.isWhitespace).reverse.dropWhile Char.isWhitespace |>.reverse
  let isNeg := t.headD ' ' == '-'
  let core := if t.headD ' ' == '-' || t.headD ' ' == '+' then t.drop 1 else t
  if core.isEmpty || !core.all Char.isDigit then none
  else
    let n : Nat := core.foldl (fun a c => a * 10 + (c.toNat - 48)) 0
    some (if isNeg then -(n : Int) else (n : Int))

/-- Source `s.split(":")[0]`: the prefix of `s` before the
first colon (the whole string when there is no colon). -/
def beforeColon (s : String) : String := ⟨s.data.takeWhile (fun c => c != ':')⟩

/-- Source `int(slot["start_time"].split(":")[0])` — the start hour of a slot,
`none` when `int` raises. -/
def startHour (s : String) : Option Int := pythonInt (beforeColon s)

/-! ## Schedule table (external read-only data, `mock_schedule.json`)

The JSON file is not part of the repository sources; its shape is fixed
by the spec (section 3, Schedule Table): per appointment-type
`duration_minutes` and a day-name keyed table of
`{date, slots:[{start_time, end_time, available}]}`.  The slot finder is
verified for every table of this shape. -/

structure ScheduleSlot where
  start_time : String
  end_time : String
  available : Bool
deriving DecidableEq

structure DayData where
  date : String
  slots : List ScheduleSlot
deriving DecidableEq

structure TypeEntry where
  duration_minutes : Nat
  schedule : List (String × DayData)
deriving DecidableEq

abbrev Schedule := List (String × TypeEntry)

/-- A slot record as built by `get_available_slots` (`slot_info` in the
source): day name, date, start and end time, and the fixed duration of
the appointment type. -/
structure SlotInfo where
  day : String
  date : String
  start_time : String
  end_time : String
  duration : Nat
deriving DecidableEq

/-- Source `if date and day_data.get("date") != date: continue` — the day is
skipped when the date filter is truthy and differs from the date of the day. -/
def dateSkipped (filter : Option String) (ddDate : String) : Bool :=
  match filter with
  | none => false
  | some d => d != "" && ddDate != d

/-- The time-of-day `continue` chain of `get_available_slots`, given a
truthy preference `t` and the parsed start hour `h`: `true` means the
slot is kept. -/
def slotPasses (t : String) (h : Int) : Bool :=
  if (pyLower t = "morning" ∨ pyLower t = "am") ∧ 12 ≤ h then false
  else if (pyLower t = "afternoon" ∨ pyLower t = "pm") ∧ (h < 12 ∨ 17 ≤ h) then false
  else if pyLower t = "evening" ∧ h < 17 then false
  else true

/-- The full time-preference filter applied to one slot:
`some true` keep, `some false` drop, `none` when the `int(...)` hour
parse raises (which aborts the whole scan).  A falsy preference
(absent or empty) keeps every slot, mirroring `if time_preference:`. -/
def timeFilter (tp : Option String) (stime : String) : Option Bool :=
  match tp with
  | none => some true
  | some t =>
    if t == "" then some true
    else
      match startHour stime with
      | none => none
      | some h => some (slotPasses t h)

/-- The inner loop of `get_available_slots` over the slots of one day.
`none` models an exception escaping the loop. -/
def collectDay (tp : Option String) (dayName ddDate : String) (dur : Nat) :
    List ScheduleSlot → Option (List SlotInfo)
  | [] => some []
  | s :: rest =>
    if s.available then
      match timeFilter tp s.start_time with
      | none => none
      | some keep =>
        if keep then
          (collectDay tp dayName ddDate dur rest).map
            (fun l => ⟨dayName, ddDate, s.start_time, s.end_time, dur⟩ :: l)
        else collectDay tp dayName ddDate dur rest
    else collectDay tp dayName ddDate dur rest

/-- The outer loop of `get_available_slots` over the schedule days. -/
def collectDays (tp date : Option String) (dur : Nat) :
    List (String × DayData) → Option (List SlotInfo)
  | [] => some []
  | (dn, dd) :: rest =>
    if dateSkipped date dd.date then collectDays tp date dur rest
    else
      match collectDay tp dn dd.date dur dd.slots with
      | none => none
      | some l => (collectDays tp date dur rest).map (fun l2 => l ++ l2)

/-- The body of the `try` block of `AgentTools.get_available_slots`:
`none` models an exception reaching the `except` handler. -/
def collectSlots (sched : Schedule) (atype : String) (date tp : Option String) :
    Option (List SlotInfo) :=
  match sched.lookup atype with
  | none => some []
  | some entry => collectDays tp date entry.duration_minutes entry.schedule

/-- Source `AgentTools.get_available_slots`: filter the static schedule of one
appointment type by exact date and coarse time preference, cap at 10
results; any internal exception is swallowed into an empty list. -/
def get_available_slots (sched : Schedule) (atype : String) (date tp : Option String) :
    List SlotInfo :=
  match collectSlots sched atype date tp with
  | none => []
  | some l => l.take 10

/-! ## Type recommender -/

def followup_words : List String :=
  ["followup", "follow-up", "follow up", "checkup", "check up", "routine check"]

def physical_words : List String :=
  ["physical", "exam", "annual", "complete exam"]

def specialist_words : List String :=
  ["specialist", "cardiologist", "dermatologist", "neurologist", "serious", "chronic"]

/-- Source `any(word in reason_lower for word in ...)`. -/
def matchesAny (ws : List String) (reasonLower : String) : Bool :=
  ws.any (fun w => pyIn w reasonLower)

/-- Source `AgentTools.recommend_appointment_type`: keyword containment checks
against the three fixed lists in priority order, defaulting to general
consultation. -/
def recommend_appointment_type (reason : String) : String :=
  let reason_lower := pyLower reason
  if matchesAny followup_words reason_lower then "followup"
  else if matchesAny physical_words reason_lower then "physical_exam"
  else if matchesAny specialist_words reason_lower then "specialist_consultation"
  else "general_consultation"

/-! ## Conversation state (pydantic models)

`ConversationState.context` is created as an empty dict and never read
or written again anywhere in the source, so it is omitted.  `messages`
timestamps come from `datetime.now().isoformat()`; the wall clock is a
parameter of the chat step. -/

inductive Phase
  | greeting | selecting_type | understanding | showing_slots
  | collecting_info | confirming | complete
deriving DecidableEq

structure MessageRec where
  role : String
  content : String
  timestamp : String
deriving DecidableEq

structure PatientInfo where
  name : Option String := none
  email : Option String := none
  phone : Option String := none
deriving DecidableEq

/-- Field `selected_slot` is a Python `dict` whose key set matters
(`"end_time" in slot`); it is modelled as an association list.  The
`duration` value, an int in the source, is stored in decimal form —
no claim inspects it other than for key presence. -/
abbrev SlotDict := List (String × String)

/-- Python dict truthiness: the empty dict is falsy. -/
def dictTruthy : Option SlotDict → Bool
  | none => false
  | some d => !d.isEmpty

/-- Python `key in dict` for a slot dict. -/
def slotHasKey (d : SlotDict) (k : String) : Bool := (d.lookup k).isSome

/-- The dict a `SlotInfo` record turns into when stored as
`selected_slot`. -/
def SlotInfo.toDict (a : SlotInfo) : SlotDict :=
  [("day", a.day), ("date", a.date), ("start_time", a.start_time),
   ("end_time", a.end_time), ("duration", toString a.duration)]

structure BookingDetails where
  appointment_type : Option String := none
  preferred_date : Option String := none
  preferred_time : Option String := none
  reason : Option String := none
  selected_slot : Option SlotDict := none
deriving DecidableEq

structure CollectedInfo where
  appointment_type : Bool := false
  reason : Bool := false
  name : Bool := false
  email : Bool := false
  phone : Bool := false
  date : Bool := false
  time : Bool := false
deriving DecidableEq

structure ConversationState where
  session_id : String
  phase : Phase
  messages : List MessageRec
  patient_info : PatientInfo
  booking_details : BookingDetails
  collected_info : CollectedInfo
deriving DecidableEq

/-! ## Intent oracle output

`analyze_intent` is an external LLM call; its (already JSON-parsed)
result is a parameter of the chat step.  String fields sit in `Option`
(`null` → `none`); the orchestrator only ever tests them for Python
truthiness. -/

structure Extracted where
  reason : Option String := none
  appointment_type : Option String := none
  name : Option String := none
  email : Option String := none
  phone : Option String := none
  date : Option String := none
  time_preference : Option String := none
  specific_slot : Option SlotDict := none
  slot_selection : Option String := none
deriving DecidableEq

structure IntentAnalysis where
  intent : Option String := none
  extracted : Extracted := {}
  next_action : Option String := none
  ready_to_book : Bool := false
  is_greeting : Bool := false
deriving DecidableEq

/-! ## Chat endpoint pieces (`chat`, src/Backend/main.py) -/

def restart_keywords : List String := ["new", "another", "book", "schedule"]

/-- The restart block at the top of `chat`: when the session is in the
complete phase and the lowered inbound message contains a restart
keyword, patient info, booking details, collected flags and the phase
are re-initialised in place; nothing else is touched. -/
def applyRestart (st : ConversationState) (message : String) : ConversationState :=
  if st.phase = Phase.complete ∧
      restart_keywords.any (fun w => pyIn w (pyLower message)) = true then
    { st with phase := Phase.greeting, patient_info := {},
              booking_details := {}, collected_info := {} }
  else st

/-- Source `if extracted.get("reason") and not state.booking_details.reason:` -/
def mergeReason (st : ConversationState) (ex : Extracted) : ConversationState :=
  if optStrTruthy ex.reason && !optStrTruthy st.booking_details.reason then
    { st with booking_details := { st.booking_details with reason := ex.reason },
              collected_info := { st.collected_info with reason := true },
              phase := Phase.selecting_type }
  else st

/-- Source `if extracted.get("appointment_type"):` — unguarded overwrite. -/
def mergeType (st : ConversationState) (ex : Extracted) : ConversationState :=
  if optStrTruthy ex.appointment_type then
    { st with booking_details :=
                { st.booking_details with appointment_type := ex.appointment_type },
              collected_info := { st.collected_info with appointment_type := true },
              phase := Phase.understanding }
  else st

/-- Source `if extracted.get("name") and not state.patient_info.name:` -/
def mergeName (st : ConversationState) (ex : Extracted) : ConversationState :=
  if optStrTruthy ex.name && !optStrTruthy st.patient_info.name then
    { st with patient_info := { st.patient_info with name := ex.name },
              collected_info := { st.collected_info with name := true } }
  else st

/-- Source `if extracted.get("phone") and not state.patient_info.phone:` -/
def mergePhone (st : ConversationState) (ex : Extracted) : ConversationState :=
  if optStrTruthy ex.phone && !optStrTruthy st.patient_info.phone then
    { st with patient_info := { st.patient_info with phone := ex.phone },
              collected_info := { st.collected_info with phone := true } }
  else st

/-- Source `if extracted.get("email") and not state.patient_info.email:` -/
def mergeEmail (st : ConversationState) (ex : Extracted) : ConversationState :=
  if optStrTruthy ex.email && !optStrTruthy st.patient_info.email then
    { st with patient_info := { st.patient_info with email := ex.email },
              collected_info := { st.collected_info with email := true } }
  else st

/-- Source `if extracted.get("date"):` — unguarded overwrite. -/
def mergeDate (st : ConversationState) (ex : Extracted) : ConversationState :=
  if optStrTruthy ex.date then
    { st with booking_details := { st.booking_details with preferred_date := ex.date },
              collected_info := { st.collected_info with date := true } }
  else st

/-- Source `if extracted.get("time_preference"):` — unguarded overwrite. -/
def mergeTime (st : ConversationState) (ex : Extracted) : ConversationState :=
  if optStrTruthy ex.time_preference then
    { st with booking_details :=
                { st.booking_details with preferred_time := ex.time_preference },
              collected_info := { st.collected_info with time := true },
              phase := Phase.showing_slots }
  else st

/-- Lines 456-487 of `chat`: the field merge, in source order. -/
def mergeExtracted (st : ConversationState) (ex : Extracted) : ConversationState :=
  mergeTime (mergeDate (mergeEmail (mergePhone (mergeName (mergeType
    (mergeReason st ex) ex) ex) ex) ex) ex) ex

/-- The first `{date, start_time}` entry of `avail` matching the
extracted slot dict (`avail_slot["date"] == slot.get("date") and
avail_slot["start_time"] == slot.get("start_time")`). -/
def matchingAvailSlot (avail : List SlotInfo) (d : SlotDict) : Option SlotInfo :=
  avail.find? (fun a =>
    some a.date == d.lookup "date" && some a.start_time == d.lookup "start_time")

/-- The freshly recomputed slot list used by ordinal slot selection:
the slot finder re-run with the stored appointment type of the session,
preferred date and time preference. -/
def freshSlots (sched : Schedule) (st : ConversationState) : List SlotInfo :=
  get_available_slots sched (st.booking_details.appointment_type.getD "")
    st.booking_details.preferred_date st.booking_details.preferred_time

/-- The end-time backfill for an extracted `specific_slot` dict: when
the dict lacks an `"end_time"` key and an appointment type is set, the
slot finder is re-queried for the extracted date (no time filter) and
the first `{date, start_time}` match replaces the dict; otherwise the
dict is kept as extracted. -/
def backfillSlot (sched : Schedule) (st : ConversationState) (d : SlotDict) : SlotDict :=
  if !slotHasKey d "end_time" &&
      optStrTruthy st.booking_details.appointment_type then
    match matchingAvailSlot (get_available_slots sched
        (st.booking_details.appointment_type.getD "") (d.lookup "date") none) d with
    | some a => a.toDict
    | none => d
  else d

/-- Lines 489-522 of `chat`: explicit (`specific_slot`) selection with
end-time backfill, `elif` ordinal (`slot_selection`) selection with
silent out-of-range / parse-failure handling. -/
def applySlotChoice (sched : Schedule) (st : ConversationState) (ex : Extracted) :
    ConversationState :=
  if dictTruthy ex.specific_slot then
    { st with booking_details := { st.booking_details with
                selected_slot := some (backfillSlot sched st (ex.specific_slot.getD [])) },
              phase := Phase.collecting_info }
  else if optStrTruthy ex.slot_selection &&
      optStrTruthy st.booking_details.appointment_type then
    match pythonInt (ex.slot_selection.getD "") with
    | none => st
    | some n =>
      if 0 ≤ n - 1 ∧ n - 1 < ((freshSlots sched st).length : Int) then
        match (freshSlots sched st).get? (n - 1).toNat with
        | some a =>
          { st with booking_details :=
                      { st.booking_details with selected_slot := some a.toDict },
                    phase := Phase.collecting_info }
        | none => st
      else st
  else st

/-! ## Booking finalize -/

structure ApptTypeInfo where
  name : String
  duration : Nat
  description : String
deriving DecidableEq

/-- The fixed `APPOINTMENT_TYPES` table. -/
def APPOINTMENT_TYPES : List (String × ApptTypeInfo) :=
  [("general_consultation",
    ⟨"General Consultation", 30, "Standard doctor visit for general health concerns"⟩),
   ("specialist_consultation",
    ⟨"Specialist Consultation", 60, "Extended consultation with a specialist"⟩),
   ("physical_exam",
    ⟨"Physical Exam", 45, "Comprehensive physical examination"⟩),
   ("followup",
    ⟨"Follow-up", 15, "Quick follow-up for previous visit"⟩)]

/-- Python `x or "General consultation"` on an optional string. -/
def pyOrStr (x : Option String) (dflt : String) : String :=
  match x with
  | some s => if s == "" then dflt else s
  | none => dflt

/-- How a `None` renders inside an f-string. -/
def pyStr : Option String → String
  | none => "None"
  | some s => s

/-- The record appended to the `bookings` ledger by
`AgentTools.book_appointment`; `booking_id`, `confirmation_code` and
`created_at` are generated from uuid/wall clock and enter as
parameters of the chat step. -/
structure BookingData where
  booking_id : String
  confirmation_code : String
  status : String
  created_at : String
  appointment_type : Option String
  appointment_type_name : Option String
  duration : Option Nat
  date : String
  start_time : String
  end_time : String
  patient_name : Option String
  patient_email : Option String
  patient_phone : Option String
  reason : String
deriving DecidableEq

/-- The `can_book` readiness check (lines 537-544): oracle readiness,
Python-truthy name, email and phone, truthy (non-empty) selected slot
dict, and the `"end_time"` KEY present in it.  The `and` chain
short-circuits, so the key test only runs on a truthy dict. -/
def can_book (st : ConversationState) (ia : IntentAnalysis) : Bool :=
  ia.ready_to_book && optStrTruthy st.patient_info.name &&
    optStrTruthy st.patient_info.email && optStrTruthy st.patient_info.phone &&
    dictTruthy st.booking_details.selected_slot &&
    slotHasKey (st.booking_details.selected_slot.getD []) "end_time"

/-- The response envelope of `POST /api/chat` (the dict literal at the
end of `chat`; `appointment_types` is echoed exactly when the next
action is `show_appointment_types`, modelled as a flag). -/
structure Envelope where
  response : String
  phase : Phase
  intent : Option String
  available_slots : List SlotInfo
  booking : Option BookingData
  patient_info : PatientInfo
  booking_details : BookingDetails
  next_action : Option String
  types_echoed : Bool
deriving DecidableEq

/-- Everything one `POST /api/chat` call does: the session state left
in the store, the record appended to the bookings ledger (if any), the
slot list computed inside the call (recorded verbatim for reasoning —
the envelope may discard it), and the response envelope.  `envelope =
none` models an uncaught `KeyError` (HTTP 500): state mutations made
before the raise persist, mutations after it never happen. -/
structure ChatOutcome where
  state : ConversationState
  booking : Option BookingData
  computed_slots : List SlotInfo
  envelope : Option Envelope
deriving DecidableEq

/-- The `chat` endpoint body for one request, after session lookup or
creation.  `ia` is the intent-oracle result, `oracleReply` the
response-oracle text used on the non-booking path, `bookingId`,
`confCode` and `now` the generated identifiers and wall clock. -/
def userAppended (st : ConversationState) (msg now : String) : ConversationState :=
  { st with messages := st.messages ++ [⟨"user", msg, now⟩] }

/-- The session state at the point of the `can_book` check: restart
handling, user message append, oracle field merge, then slot choice. -/
def postMerge (sched : Schedule) (st0 : ConversationState) (message : String)
    (ia : IntentAnalysis) (now : String) : ConversationState :=
  applySlotChoice sched
    (mergeExtracted (userAppended (applyRestart st0 message) message now) ia.extracted)
    ia.extracted

def chatStep (sched : Schedule) (st0 : ConversationState) (message : String)
    (ia : IntentAnalysis) (oracleReply : String)
    (bookingId confCode now : String) : ChatOutcome :=
  let st4 := postMerge sched st0 message ia now
  let shown :=
    if ia.next_action == some "show_slots" &&
        optStrTruthy st4.booking_details.appointment_type then
      get_available_slots sched (st4.booking_details.appointment_type.getD "")
        st4.booking_details.preferred_date st4.booking_details.preferred_time
    else []
  if can_book st4 ia then
    let d := st4.booking_details.selected_slot.getD []
    match d.lookup "date", d.lookup "start_time", d.lookup "end_time" with
    | some bdate, some bstart, some bend =>
      let info := APPOINTMENT_TYPES.lookup
        (st4.booking_details.appointment_type.getD "")
      let bk : BookingData :=
        { booking_id := bookingId, confirmation_code := confCode,
          status := "confirmed", created_at := now,
          appointment_type := st4.booking_details.appointment_type,
          appointment_type_name := info.map (fun i => i.name),
          duration := info.map (fun i => i.duration),
          date := bdate, start_time := bstart, end_time := bend,
          patient_name := st4.patient_info.name,
          patient_email := st4.patient_info.email,
          patient_phone := st4.patient_info.phone,
          reason := pyOrStr st4.booking_details.reason "General consultation" }
      let st5 := { st4 with phase := Phase.complete }
      match d.lookup "day" with
      | none => ⟨st5, some bk, shown, none⟩
      | some dday =>
        let resp := "Perfect! All set. Your appointment is confirmed for " ++
          dday ++ ", " ++ bdate ++ " at " ++ bstart ++
          ". You will receive a confirmation email at " ++
          pyStr st4.patient_info.email ++
          " with all the details. Your confirmation code is " ++ confCode ++ "."
        let st6 := { st5 with messages := st5.messages ++ [⟨"assistant", resp, now⟩] }
        ⟨st6, some bk, shown,
         some ⟨resp, st6.phase, ia.intent, [], some bk, st6.patient_info,
               st6.booking_details, ia.next_action,
               ia.next_action == some "show_appointment_types"⟩⟩
    | _, _, _ => ⟨st4, none, shown, none⟩
  else
    let st5 := { st4 with messages := st4.messages ++ [⟨"assistant", oracleReply, now⟩] }
    ⟨st5, none, shown,
     some ⟨oracleReply, st5.phase, ia.intent, shown, none, st5.patient_info,
           st5.booking_details, ia.next_action,
           ia.next_action == some "show_appointment_types"⟩⟩

/-! ## Reset endpoint -/

/-- The field reset performed by `POST /api/reset-session` on a known
session (identical to the restart reset inside `chat`). -/
def resetState (s : ConversationState) : ConversationState :=
  { s with phase := Phase.greeting, patient_info := {},
           booking_details := {}, collected_info := {} }

abbrev SessionStore := List (String × ConversationState)

/-- In-place update of the stored session, modelled functionally. -/
def resetMap (sid : String) (store : SessionStore) : SessionStore :=
  store.map (fun p => if p.1 = sid then (p.1, resetState p.2) else p)

/-- Endpoint `POST /api/reset-session`: reset a known session and acknowledge,
or report `not_found` without failing. -/
def reset_session (store : SessionStore) (sid : String) : SessionStore × String :=
  match store.lookup sid with
  | some _ => (resetMap sid store, "reset")
  | none => (store, "not_found")

/-! # Theorems -/

/-! ## C3: the type recommender is total and ordered -/

/-- C3: the Type Recommender is total: for every input string,
including the empty string, it returns exactly one of the four fixed
type codes, evaluating the keyword lists case-insensitively in the
fixed priority order followup, physical, specialist, and returning
general consultation when no list matches. -/
theorem c3_recommender_total_and_ordered (reason : String) :
    (recommend_appointment_type reason = "followup" ∨
     recommend_appointment_type reason = "physical_exam" ∨
     recommend_appointment_type reason = "specialist_consultation" ∨
     recommend_appointment_type reason = "general_consultation") ∧
    (matchesAny followup_words (pyLower reason) = true →
      recommend_appointment_type reason = "followup") ∧
    (matchesAny followup_words (pyLower reason) = false →
     matchesAny physical_words (pyLower reason) = true →
      recommend_appointment_type reason = "physical_exam") ∧
    (matchesAny followup_words (pyLower reason) = false →
     matchesAny physical_words (pyLower reason) = false →
     matchesAny specialist_words (pyLower reason) = true →
      recommend_appointment_type reason = "specialist_consultation") ∧
    (matchesAny followup_words (pyLower reason) = false →
     matchesAny physical_words (pyLower reason) = false →
     matchesAny specialist_words (pyLower reason) = false →
      recommend_appointment_type reason = "general_consultation") := by
  unfold recommend_appointment_type
  cases hf : matchesAny followup_words (pyLower reason) <;>
    cases hp : matchesAny physical_words (pyLower reason) <;>
      cases hs : matchesAny specialist_words (pyLower reason) <;>
        simp [hf, hp, hs]

/-- Closed instance of C3 at the empty string. -/
theorem c3_witness : recommend_appointment_type "" = "general_consultation" :=
  (c3_recommender_total_and_ordered "").2.2.2.2 (by decide) (by decide) (by decide)

/-! ## C2: the time-of-day filter bands -/

theorem slotPasses_morning (t : String) (h : Int)
    (hp : slotPasses t h = true)
    (ht : pyLower t = "morning" ∨ pyLower t = "am") : h < 12 := by
  unfold slotPasses at hp
  split_ifs at hp with h1 h2 h3
  have h12 : ¬ 12 ≤ h := fun hh => h1 ⟨ht, hh⟩
  omega

theorem slotPasses_afternoon (t : String) (h : Int)
    (hp : slotPasses t h = true)
    (ht : pyLower t = "afternoon" ∨ pyLower t = "pm") : 12 ≤ h ∧ h < 17 := by
  unfold slotPasses at hp
  split_ifs at hp with h1 h2 h3
  have hb : ¬ (h < 12 ∨ 17 ≤ h) := fun hh => h2 ⟨ht, hh⟩
  omega

theorem slotPasses_evening (t : String) (h : Int)
    (hp : slotPasses t h = true) (ht : pyLower t = "evening") : 17 ≤ h := by
  unfold slotPasses at hp
  split_ifs at hp with h1 h2 h3
  have hb : ¬ h < 17 := fun hh => h3 ⟨ht, hh⟩
  omega

theorem collectDay_mem (tp : Option String) (dn dd : String) (dur : Nat) :
    ∀ (slots : List ScheduleSlot) (l : List SlotInfo),
      collectDay tp dn dd dur slots = some l →
      ∀ info ∈ l, timeFilter tp info.start_time = some true := by
  intro slots
  induction slots with
  | nil =>
    intro l hl info hi
    simp only [collectDay, Option.some.injEq] at hl
    subst hl
    simp at hi
  | cons s rest ih =>
    intro l hl info hi
    simp only [collectDay] at hl
    by_cases ha : s.available = true
    · rw [if_pos ha] at hl
      cases htf : timeFilter tp s.start_time with
      | none => rw [htf] at hl; exact absurd hl (by simp)
      | some keep =>
        rw [htf] at hl
        dsimp only at hl
        cases keep with
        | false =>
          rw [if_neg (by simp)] at hl
          exact ih l hl info hi
        | true =>
          rw [if_pos rfl] at hl
          cases hrec : collectDay tp dn dd dur rest with
          | none => rw [hrec] at hl; exact absurd hl (by simp)
          | some l2 =>
            rw [hrec] at hl
            simp only [Option.map_some', Option.some.injEq] at hl
            subst hl
            rcases List.mem_cons.mp hi with hh | hh
            · subst hh; exact htf
            · exact ih l2 hrec info hh
    · rw [if_neg ha] at hl
      exact ih l hl info hi

theorem collectDays_mem (tp date : Option String) (dur : Nat) :
    ∀ (days : List (String × DayData)) (l : List SlotInfo),
      collectDays tp date dur days = some l →
      ∀ info ∈ l, timeFilter tp info.start_time = some true := by
  intro days
  induction days with
  | nil =>
    intro l hl info hi
    simp only [collectDays, Option.some.injEq] at hl
    subst hl
    simp at hi
  | cons p rest ih =>
    intro l hl info hi
    obtain ⟨dn, dd⟩ := p
    simp only [collectDays] at hl
    by_cases hskip : dateSkipped date dd.date = true
    · rw [if_pos hskip] at hl
      exact ih l hl info hi
    · rw [if_neg hskip] at hl
      cases hcd : collectDay tp dn dd.date dur dd.slots with
      | none => rw [hcd] at hl; exact absurd hl (by simp)
      | some l1 =>
        rw [hcd] at hl
        cases hrest : collectDays tp date dur rest with
        | none => rw [hrest] at hl; exact absurd hl (by simp)
        | some l2 =>
          rw [hrest] at hl
          simp only [Option.map_some', Option.some.injEq] at hl
          subst hl
          rcases List.mem_append.mp hi with hh | hh
          · exact collectDay_mem tp dn dd.date dur dd.slots l1 hcd info hh
          · exact ih l2 hrest info hh

theorem get_available_slots_mem (sched : Schedule) (atype : String)
    (date tp : Option String) (info : SlotInfo)
    (hm : info ∈ get_available_slots sched atype date tp) :
    timeFilter tp info.start_time = some true := by
  unfold get_available_slots at hm
  cases hc : collectSlots sched atype date tp with
  | none => rw [hc] at hm; simp at hm
  | some l =>
    rw [hc] at hm
    have hm2 : info ∈ l := List.take_subset 10 l hm
    unfold collectSlots at hc
    cases hk : sched.lookup atype with
    | none =>
      rw [hk] at hc
      simp only [Option.some.injEq] at hc
      subst hc
      simp at hm2
    | some entry =>
      rw [hk] at hc
      exact collectDays_mem tp date entry.duration_minutes entry.schedule l hc info hm2

theorem pyLower_ne_empty (t s : String)
    (h : pyLower t = s) (hs : s ≠ "") : t ≠ "" := by
  intro he
  subst he
  rw [show pyLower "" = "" from rfl] at h
  exact hs h.symm

theorem timeFilter_true_hour (t : String) (stime : String)
    (h : timeFilter (some t) stime = some true) (hne : t ≠ "") :
    ∃ hr, startHour stime = some hr ∧ slotPasses t hr = true := by
  unfold timeFilter at h
  dsimp only at h
  rw [if_neg (by simpa using hne)] at h
  cases hs : startHour stime with
  | none => rw [hs] at h; exact absurd h (by simp)
  | some hr =>
    rw [hs] at h
    simp only [Option.some.injEq] at h
    exact ⟨hr, rfl, h⟩

/-- C2: for every slot returned by the Slot Finder under a time-of-day
filter, the start hour lies in the fixed band: morning or am (case
insensitive) means hour strictly below 12, afternoon or pm means
12 ≤ hour < 17, evening means hour ≥ 17. -/
theorem c2_time_filter_bands (sched : Schedule) (atype : String)
    (date : Option String) (tp : String) (info : SlotInfo)
    (hm : info ∈ get_available_slots sched atype date (some tp)) :
    ((pyLower tp = "morning" ∨ pyLower tp = "am") →
      ∃ hr, startHour info.start_time = some hr ∧ hr < 12) ∧
    ((pyLower tp = "afternoon" ∨ pyLower tp = "pm") →
      ∃ hr, startHour info.start_time = some hr ∧ 12 ≤ hr ∧ hr < 17) ∧
    (pyLower tp = "evening" →
      ∃ hr, startHour info.start_time = some hr ∧ 17 ≤ hr) := by
  have htf := get_available_slots_mem sched atype date (some tp) info hm
  refine ⟨?_, ?_, ?_⟩ <;> intro ht
  · have hne : tp ≠ "" := by
      rcases ht with h | h
      · exact pyLower_ne_empty tp "morning" h (by decide)
      · exact pyLower_ne_empty tp "am" h (by decide)
    obtain ⟨hr, h1, h2⟩ := timeFilter_true_hour tp info.start_time htf hne
    exact ⟨hr, h1, slotPasses_morning tp hr h2 ht⟩
  · have hne : tp ≠ "" := by
      rcases ht with h | h
      · exact pyLower_ne_empty tp "afternoon" h (by decide)
      · exact pyLower_ne_empty tp "pm" h (by decide)
    obtain ⟨hr, h1, h2⟩ := timeFilter_true_hour tp info.start_time htf hne
    exact ⟨hr, h1, slotPasses_afternoon tp hr h2 ht⟩
  · have hne : tp ≠ "" := pyLower_ne_empty tp "evening" ht (by decide)
    obtain ⟨hr, h1, h2⟩ := timeFilter_true_hour tp info.start_time htf hne
    exact ⟨hr, h1, slotPasses_evening tp hr h2 ht⟩

/-- A small concrete schedule used by several closed instances:
general consultations on one Monday with a morning, an afternoon and
an evening slot available. -/
def wSched : Schedule :=
  [("general_consultation",
    ⟨30, [("monday", ⟨"2025-01-06",
            [⟨"09:00", "09:30", true⟩, ⟨"14:00", "14:30", true⟩,
             ⟨"18:00", "18:30", true⟩, ⟨"10:00", "10:30", false⟩]⟩)]⟩)]

/-- Closed instance of C2: the morning filter, spelled with a capital
letter, returns the 09:00 slot and its hour is below 12. -/
theorem c2_witness :
    (⟨"monday", "2025-01-06", "09:00", "09:30", 30⟩ : SlotInfo) ∈
      get_available_slots wSched "general_consultation" none (some "Morning") ∧
    ∃ hr, startHour "09:00" = some hr ∧ hr < 12 := by
  have hmem : (⟨"monday", "2025-01-06", "09:00", "09:30", 30⟩ : SlotInfo) ∈
      get_available_slots wSched "general_consultation" none (some "Morning") := by
    decide
  exact ⟨hmem,
    (c2_time_filter_bands wSched "general_consultation" none "Morning" _ hmem).1
      (Or.inl (by decide))⟩

/-! ## C7: restart from the complete phase -/

/-- C7: when a session in the complete phase receives a message
containing one of the restart keywords, the restart block resets
patient info, booking details, collected flags and the phase to their
initial values, while the session identifier and the accumulated
message history are left unchanged. -/
theorem c7_restart_resets_and_preserves (st : ConversationState) (message : String)
    (hph : st.phase = Phase.complete)
    (hkw : restart_keywords.any (fun w => pyIn w (pyLower message)) = true) :
    (applyRestart st message).phase = Phase.greeting ∧
    (applyRestart st message).patient_info = {} ∧
    (applyRestart st message).booking_details = {} ∧
    (applyRestart st message).collected_info = {} ∧
    (applyRestart st message).session_id = st.session_id ∧
    (applyRestart st message).messages = st.messages := by
  unfold applyRestart
  rw [if_pos ⟨hph, hkw⟩]
  exact ⟨rfl, rfl, rfl, rfl, rfl, rfl⟩

def c7St : ConversationState :=
  { session_id := "s7", phase := Phase.complete,
    messages := [⟨"user", "hi", "T0"⟩, ⟨"assistant", "hello", "T0"⟩],
    patient_info := { name := some "Ada", email := some "ada@example.com",
                      phone := some "555-0100" },
    booking_details := { appointment_type := some "followup" },
    collected_info := { name := true, email := true, phone := true } }

/-- Closed instance of C7 on a completed session and the message
"book another". -/
theorem c7_witness :
    (applyRestart c7St "book another").phase = Phase.greeting ∧
    (applyRestart c7St "book another").patient_info = {} ∧
    (applyRestart c7St "book another").session_id = "s7" ∧
    (applyRestart c7St "book another").messages = c7St.messages := by
  have h := c7_restart_resets_and_preserves c7St "book another" rfl (by decide)
  exact ⟨h.1, h.2.1, h.2.2.2.2.1, h.2.2.2.2.2⟩

/-! ## C8: reset-session idempotence -/

theorem resetState_idem (s : ConversationState) :
    resetState (resetState s) = resetState s := rfl

theorem resetState_of_initial (s : ConversationState)
    (h1 : s.phase = Phase.greeting) (h2 : s.patient_info = {})
    (h3 : s.booking_details = {}) (h4 : s.collected_info = {}) :
    resetState s = s := by
  obtain ⟨sid, ph, msgs, pi, bd, ci⟩ := s
  simp only [resetState]
  simp only at h1 h2 h3 h4
  rw [h1, h2, h3, h4]

theorem lookup_resetMap (sid : String) :
    ∀ (store : SessionStore) (s : ConversationState),
      store.lookup sid = some s →
      (resetMap sid store).lookup sid = some (resetState s) := by
  intro store
  induction store with
  | nil => intro s h; simp [List.lookup] at h
  | cons p rest ih =>
    intro s h
    obtain ⟨k, v⟩ := p
    by_cases hk : sid = k
    · subst hk
      simp only [List.lookup, beq_self_eq_true] at h
      simp only [Option.some.injEq] at h
      subst h
      have hhd : resetMap sid ((sid, v) :: rest) =
          (sid, resetState v) :: resetMap sid rest := by
        simp [resetMap]
      rw [hhd]
      simp [List.lookup]
    · have hbk : (sid == k) = false := beq_eq_false_iff_ne.mpr hk
      simp only [List.lookup, hbk] at h
      have := ih s h
      simp only [resetMap, List.map] at this ⊢
      rw [if_neg (fun he => hk he.symm)]
      simpa [List.lookup, hbk] using this

theorem map_idem_of_idem {α : Type} (f : α → α) (hf : ∀ a, f (f a) = f a) :
    ∀ l : List α, (l.map f).map f = l.map f := by
  intro l
  induction l with
  | nil => rfl
  | cons a l ih => simp only [List.map, hf a, ih]

theorem resetMap_idem (sid : String) (store : SessionStore) :
    resetMap sid (resetMap sid store) = resetMap sid store := by
  apply map_idem_of_idem
  intro p
  obtain ⟨k, v⟩ := p
  by_cases hk : k = sid
  · simp [hk, resetState_idem]
  · simp [hk]

/-- C8: resetting a session that is already in its initial state still
answers with the reset acknowledgement and leaves the stored session
unchanged; moreover applying reset twice yields exactly the same store
and answer as applying it once. -/
theorem c8_reset_idempotent (store : SessionStore) (sid : String)
    (s : ConversationState) (hs : store.lookup sid = some s)
    (h1 : s.phase = Phase.greeting) (h2 : s.patient_info = {})
    (h3 : s.booking_details = {}) (h4 : s.collected_info = {}) :
    (reset_session store sid).2 = "reset" ∧
    (reset_session store sid).1.lookup sid = some s ∧
    reset_session (reset_session store sid).1 sid = reset_session store sid := by
  have hl := lookup_resetMap sid store s hs
  have hfix := resetState_of_initial s h1 h2 h3 h4
  unfold reset_session
  rw [hs]
  refine ⟨rfl, ?_, ?_⟩
  · rw [hl, hfix]
  · rw [hl]
    rw [resetMap_idem]

def c8InitSt : ConversationState :=
  { session_id := "s8", phase := Phase.greeting, messages := [],
    patient_info := {}, booking_details := {}, collected_info := {} }

/-- Closed instance of C8 on a one-session store holding a fresh
session. -/
theorem c8_witness :
    (reset_session [("s8", c8InitSt)] "s8").2 = "reset" ∧
    (reset_session [("s8", c8InitSt)] "s8").1.lookup "s8" = some c8InitSt := by
  have h := c8_reset_idempotent [("s8", c8InitSt)] "s8" c8InitSt (by decide) rfl rfl rfl rfl
  exact ⟨h.1, h.2.1⟩

/-! ## Projection lemmas for the field merge -/

theorem mergeReason_patient (st : ConversationState) (ex : Extracted) :
    (mergeReason st ex).patient_info = st.patient_info := by
  unfold mergeReason; split <;> rfl

theorem mergeType_patient (st : ConversationState) (ex : Extracted) :
    (mergeType st ex).patient_info = st.patient_info := by
  unfold mergeType; split <;> rfl

theorem mergeDate_patient (st : ConversationState) (ex : Extracted) :
    (mergeDate st ex).patient_info = st.patient_info := by
  unfold mergeDate; split <;> rfl

theorem mergeTime_patient (st : ConversationState) (ex : Extracted) :
    (mergeTime st ex).patient_info = st.patient_info := by
  unfold mergeTime; split <;> rfl

theorem mergeName_booking (st : ConversationState) (ex : Extracted) :
    (mergeName st ex).booking_details = st.booking_details := by
  unfold mergeName; split <;> rfl

theorem mergePhone_booking (st : ConversationState) (ex : Extracted) :
    (mergePhone st ex).booking_details = st.booking_details := by
  unfold mergePhone; split <;> rfl

theorem mergeEmail_booking (st : ConversationState) (ex : Extracted) :
    (mergeEmail st ex).booking_details = st.booking_details := by
  unfold mergeEmail; split <;> rfl

theorem mergeName_name (st : ConversationState) (ex : Extracted) :
    (mergeName st ex).patient_info.name =
      if optStrTruthy ex.name && !optStrTruthy st.patient_info.name then ex.name
      else st.patient_info.name := by
  unfold mergeName
  by_cases h : (optStrTruthy ex.name && !optStrTruthy st.patient_info.name) = true <;>
    simp [h]

theorem mergeName_email (st : ConversationState) (ex : Extracted) :
    (mergeName st ex).patient_info.email = st.patient_info.email := by
  unfold mergeName; split <;> rfl

theorem mergeName_phone (st : ConversationState) (ex : Extracted) :
    (mergeName st ex).patient_info.phone = st.patient_info.phone := by
  unfold mergeName; split <;> rfl

theorem mergePhone_phone (st : ConversationState) (ex : Extracted) :
    (mergePhone st ex).patient_info.phone =
      if optStrTruthy ex.phone && !optStrTruthy st.patient_info.phone then ex.phone
      else st.patient_info.phone := by
  unfold mergePhone
  by_cases h : (optStrTruthy ex.phone && !optStrTruthy st.patient_info.phone) = true <;>
    simp [h]

theorem mergePhone_name (st : ConversationState) (ex : Extracted) :
    (mergePhone st ex).patient_info.name = st.patient_info.name := by
  unfold mergePhone; split <;> rfl

theorem mergePhone_email (st : ConversationState) (ex : Extracted) :
    (mergePhone st ex).patient_info.email = st.patient_info.email := by
  unfold mergePhone; split <;> rfl

theorem mergeEmail_email (st : ConversationState) (ex : Extracted) :
    (mergeEmail st ex).patient_info.email =
      if optStrTruthy ex.email && !optStrTruthy st.patient_info.email then ex.email
      else st.patient_info.email := by
  unfold mergeEmail
  by_cases h : (optStrTruthy ex.email && !optStrTruthy st.patient_info.email) = true <;>
    simp [h]

theorem mergeEmail_name (st : ConversationState) (ex : Extracted) :
    (mergeEmail st ex).patient_info.name = st.patient_info.name := by
  unfold mergeEmail; split <;> rfl

theorem mergeEmail_phone (st : ConversationState) (ex : Extracted) :
    (mergeEmail st ex).patient_info.phone = st.patient_info.phone := by
  unfold mergeEmail; split <;> rfl

theorem mergeReason_bd_type (st : ConversationState) (ex : Extracted) :
    (mergeReason st ex).booking_details.appointment_type =
      st.booking_details.appointment_type := by
  unfold mergeReason; split <;> rfl

theorem mergeReason_bd_date (st : ConversationState) (ex : Extracted) :
    (mergeReason st ex).booking_details.preferred_date =
      st.booking_details.preferred_date := by
  unfold mergeReason; split <;> rfl

theorem mergeReason_bd_time (st : ConversationState) (ex : Extracted) :
    (mergeReason st ex).booking_details.preferred_time =
      st.booking_details.preferred_time := by
  unfold mergeReason; split <;> rfl

theorem mergeReason_reason (st : ConversationState) (ex : Extracted) :
    (mergeReason st ex).booking_details.reason =
      if optStrTruthy ex.reason && !optStrTruthy st.booking_details.reason then ex.reason
      else st.booking_details.reason := by
  unfold mergeReason
  by_cases h : (optStrTruthy ex.reason && !optStrTruthy st.booking_details.reason) = true <;>
    simp [h]

theorem mergeType_bd_type (st : ConversationState) (ex : Extracted) :
    (mergeType st ex).booking_details.appointment_type =
      if optStrTruthy ex.appointment_type then ex.appointment_type
      else st.booking_details.appointment_type := by
  unfold mergeType
  by_cases h : optStrTruthy ex.appointment_type = true <;> simp [h]

theorem mergeType_bd_date (st : ConversationState) (ex : Extracted) :
    (mergeType st ex).booking_details.preferred_date =
      st.booking_details.preferred_date := by
  unfold mergeType; split <;> rfl

theorem mergeType_bd_time (st : ConversationState) (ex : Extracted) :
    (mergeType st ex).booking_details.preferred_time =
      st.booking_details.preferred_time := by
  unfold mergeType; split <;> rfl

theorem mergeType_bd_reason (st : ConversationState) (ex : Extracted) :
    (mergeType st ex).booking_details.reason = st.booking_details.reason := by
  unfold mergeType; split <;> rfl

theorem mergeDate_bd_date (st : ConversationState) (ex : Extracted) :
    (mergeDate st ex).booking_details.preferred_date =
      if optStrTruthy ex.date then ex.date else st.booking_details.preferred_date := by
  unfold mergeDate
  by_cases h : optStrTruthy ex.date = true <;> simp [h]

theorem mergeDate_bd_type (st : ConversationState) (ex : Extracted) :
    (mergeDate st ex).booking_details.appointment_type =
      st.booking_details.appointment_type := by
  unfold mergeDate; split <;> rfl

theorem mergeDate_bd_time (st : ConversationState) (ex : Extracted) :
    (mergeDate st ex).booking_details.preferred_time =
      st.booking_details.preferred_time := by
  unfold mergeDate; split <;> rfl

theorem mergeDate_bd_reason (st : ConversationState) (ex : Extracted) :
    (mergeDate st ex).booking_details.reason = st.booking_details.reason := by
  unfold mergeDate; split <;> rfl

theorem mergeTime_bd_time (st : ConversationState) (ex : Extracted) :
    (mergeTime st ex).booking_details.preferred_time =
      if optStrTruthy ex.time_preference then ex.time_preference
      else st.booking_details.preferred_time := by
  unfold mergeTime
  by_cases h : optStrTruthy ex.time_preference = true <;> simp [h]

theorem mergeTime_bd_type (st : ConversationState) (ex : Extracted) :
    (mergeTime st ex).booking_details.appointment_type =
      st.booking_details.appointment_type := by
  unfold mergeTime; split <;> rfl

theorem mergeTime_bd_date (st : ConversationState) (ex : Extracted) :
    (mergeTime st ex).booking_details.preferred_date =
      st.booking_details.preferred_date := by
  unfold mergeTime; split <;> rfl

theorem mergeTime_bd_reason (st : ConversationState) (ex : Extracted) :
    (mergeTime st ex).booking_details.reason = st.booking_details.reason := by
  unfold mergeTime; split <;> rfl

theorem mergeExtracted_name (st : ConversationState) (ex : Extracted) :
    (mergeExtracted st ex).patient_info.name =
      if optStrTruthy ex.name && !optStrTruthy st.patient_info.name then ex.name
      else st.patient_info.name := by
  unfold mergeExtracted
  rw [mergeTime_patient, mergeDate_patient, mergeEmail_name, mergePhone_name,
      mergeName_name, mergeType_patient, mergeReason_patient]

theorem mergeExtracted_email (st : ConversationState) (ex : Extracted) :
    (mergeExtracted st ex).patient_info.email =
      if optStrTruthy ex.email && !optStrTruthy st.patient_info.email then ex.email
      else st.patient_info.email := by
  unfold mergeExtracted
  rw [mergeTime_patient, mergeDate_patient, mergeEmail_email, mergePhone_email,
      mergeName_email, mergeType_patient, mergeReason_patient]

theorem mergeExtracted_phone (st : ConversationState) (ex : Extracted) :
    (mergeExtracted st ex).patient_info.phone =
      if optStrTruthy ex.phone && !optStrTruthy st.patient_info.phone then ex.phone
      else st.patient_info.phone := by
  unfold mergeExtracted
  rw [mergeTime_patient, mergeDate_patient, mergeEmail_phone, mergePhone_phone,
      mergeName_phone, mergeType_patient, mergeReason_patient]

theorem mergeExtracted_bd_type (st : ConversationState) (ex : Extracted) :
    (mergeExtracted st ex).booking_details.appointment_type =
      if optStrTruthy ex.appointment_type then ex.appointment_type
      else st.booking_details.appointment_type := by
  unfold mergeExtracted
  rw [mergeTime_bd_type, mergeDate_bd_type, mergeEmail_booking, mergePhone_booking,
      mergeName_booking, mergeType_bd_type, mergeReason_bd_type]

theorem mergeExtracted_bd_date (st : ConversationState) (ex : Extracted) :
    (mergeExtracted st ex).booking_details.preferred_date =
      if optStrTruthy ex.date then ex.date else st.booking_details.preferred_date := by
  unfold mergeExtracted
  rw [mergeTime_bd_date, mergeDate_bd_date, mergeEmail_booking, mergePhone_booking,
      mergeName_booking, mergeType_bd_date, mergeReason_bd_date]

theorem mergeExtracted_bd_time (st : ConversationState) (ex : Extracted) :
    (mergeExtracted st ex).booking_details.preferred_time =
      if optStrTruthy ex.time_preference then ex.time_preference
      else st.booking_details.preferred_time := by
  unfold mergeExtracted
  rw [mergeTime_bd_time, mergeDate_bd_time, mergeEmail_booking, mergePhone_booking,
      mergeName_booking, mergeType_bd_time, mergeReason_bd_time]

theorem mergeExtracted_bd_reason (st : ConversationState) (ex : Extracted) :
    (mergeExtracted st ex).booking_details.reason =
      if optStrTruthy ex.reason && !optStrTruthy st.booking_details.reason then ex.reason
      else st.booking_details.reason := by
  unfold mergeExtracted
  rw [mergeTime_bd_reason, mergeDate_bd_reason, mergeEmail_booking, mergePhone_booking,
      mergeName_booking, mergeType_bd_reason, mergeReason_reason]

/-! ## C9: overwrite discipline of the merge -/

def c9St : ConversationState :=
  { session_id := "s9", phase := Phase.understanding, messages := [],
    patient_info := {},
    booking_details := { appointment_type := some "followup" },
    collected_info := {} }

def c9Ex : Extracted := { appointment_type := some "" }

/-- C9 counterexample: the oracle extracts the non-null value `""` for
`appointment_type`, yet the merge does not overwrite the stored value —
Python truthiness also discards extracted empty strings, so "non-null"
is not the precise guard. -/
theorem c9_counterexample :
    c9Ex.appointment_type.isSome = true ∧
    (mergeExtracted c9St c9Ex).booking_details.appointment_type ≠
      c9Ex.appointment_type := by
  exact ⟨rfl, by decide⟩

/-- C9 amended: the merge overwrites `appointment_type`,
`preferred_date` and `preferred_time` whenever the oracle extracts a
truthy (non-null, non-empty) value, regardless of any previously stored
value, while `reason`, `name`, `email` and `phone` are never changed
once their stored value is truthy. -/
theorem c9_overwrite_discipline (st : ConversationState) (ex : Extracted) :
    (optStrTruthy ex.appointment_type = true →
      (mergeExtracted st ex).booking_details.appointment_type = ex.appointment_type) ∧
    (optStrTruthy ex.date = true →
      (mergeExtracted st ex).booking_details.preferred_date = ex.date) ∧
    (optStrTruthy ex.time_preference = true →
      (mergeExtracted st ex).booking_details.preferred_time = ex.time_preference) ∧
    (optStrTruthy st.booking_details.reason = true →
      (mergeExtracted st ex).booking_details.reason = st.booking_details.reason) ∧
    (optStrTruthy st.patient_info.name = true →
      (mergeExtracted st ex).patient_info.name = st.patient_info.name) ∧
    (optStrTruthy st.patient_info.email = true →
      (mergeExtracted st ex).patient_info.email = st.patient_info.email) ∧
    (optStrTruthy st.patient_info.phone = true →
      (mergeExtracted st ex).patient_info.phone = st.patient_info.phone) := by
  refine ⟨?_, ?_, ?_, ?_, ?_, ?_, ?_⟩ <;> intro h
  · rw [mergeExtracted_bd_type]; simp [h]
  · rw [mergeExtracted_bd_date]; simp [h]
  · rw [mergeExtracted_bd_time]; simp [h]
  · rw [mergeExtracted_bd_reason]; simp [h]
  · rw [mergeExtracted_name]; simp [h]
  · rw [mergeExtracted_email]; simp [h]
  · rw [mergeExtracted_phone]; simp [h]

def c9St2 : ConversationState :=
  { session_id := "s9b", phase := Phase.understanding, messages := [],
    patient_info := {},
    booking_details := { appointment_type := some "followup",
                         preferred_date := some "2025-01-06" },
    collected_info := {} }

def c9Ex2 : Extracted :=
  { appointment_type := some "physical_exam", date := some "2025-01-07" }

/-- Closed instance of amended C9: truthy extracted values replace the
stored appointment type and preferred date. -/
theorem c9_witness :
    (mergeExtracted c9St2 c9Ex2).booking_details.appointment_type =
      some "physical_exam" ∧
    (mergeExtracted c9St2 c9Ex2).booking_details.preferred_date =
      some "2025-01-07" := by
  have h := c9_overwrite_discipline c9St2 c9Ex2
  exact ⟨h.1 (by decide), h.2.1 (by decide)⟩

/-! ## C5: invalid ordinal slot selections are ignored -/

/-- C5: when the extraction carries no truthy `specific_slot` and the
`slot_selection` it does carry is non-numeric, or parses to a 1-based
index outside the freshly recomputed available-slot list, the slot
choice block leaves the session state completely unchanged (no error is
surfaced: the function is total and returns the state as is). -/
theorem c5_invalid_selection_ignored (sched : Schedule) (st : ConversationState)
    (ex : Extracted) (hns : dictTruthy ex.specific_slot = false)
    (hbad : pythonInt (ex.slot_selection.getD "") = none ∨
      ∀ n, pythonInt (ex.slot_selection.getD "") = some n →
        ¬(1 ≤ n ∧ n ≤ ((freshSlots sched st).length : Int))) :
    applySlotChoice sched st ex = st := by
  unfold applySlotChoice
  rw [if_neg (by simp [hns])]
  by_cases hg : (optStrTruthy ex.slot_selection &&
      optStrTruthy st.booking_details.appointment_type) = true
  · rw [if_pos hg]
    cases hpi : pythonInt (ex.slot_selection.getD "") with
    | none => rfl
    | some n =>
      dsimp only
      rcases hbad with hb | hb
      · rw [hpi] at hb; exact absurd hb (by simp)
      · have hnb := hb n hpi
        rw [if_neg (by omega)]
  · rw [if_neg hg]

def c5St : ConversationState :=
  { session_id := "s5", phase := Phase.showing_slots, messages := [],
    patient_info := {},
    booking_details := { appointment_type := some "general_consultation" },
    collected_info := {} }

def c5Ex : Extracted := { slot_selection := some "first" }

/-- Closed instance of C5: a non-numeric selection leaves the state
untouched. -/
theorem c5_witness : applySlotChoice [] c5St c5Ex = c5St :=
  c5_invalid_selection_ignored [] c5St c5Ex (by decide) (Or.inl (by decide))

/-! ## C4: explicit slot selection and end-time backfill -/

/-- C4: when the oracle extracts a `specific_slot` dict with entries
but no `end_time` key and the session has a truthy appointment type,
the orchestrator stores the backfilled slot and advances the phase to
collecting info; the backfill substitutes the first slot-finder result
for the extracted date whose date and start time match, whose stored
dict then carries `end_time` and `duration` keys, and falls back to the
extracted dict, still without an `end_time`, when nothing matches. -/
theorem c4_specific_slot_backfill (sched : Schedule) (st : ConversationState)
    (ex : Extracted) (d : SlotDict) (hd : ex.specific_slot = some d)
    (hne : d.isEmpty = false) (het : slotHasKey d "end_time" = false)
    (hty : optStrTruthy st.booking_details.appointment_type = true) :
    ((applySlotChoice sched st ex).booking_details.selected_slot =
        some (backfillSlot sched st d) ∧
     (applySlotChoice sched st ex).phase = Phase.collecting_info) ∧
    (∀ a, matchingAvailSlot (get_available_slots sched
          (st.booking_details.appointment_type.getD "") (d.lookup "date") none) d =
            some a →
        backfillSlot sched st d = a.toDict ∧
        a.toDict.lookup "end_time" = some a.end_time ∧
        a.toDict.lookup "duration" = some (toString a.duration)) ∧
    (matchingAvailSlot (get_available_slots sched
          (st.booking_details.appointment_type.getD "") (d.lookup "date") none) d =
            none →
        backfillSlot sched st d = d ∧ slotHasKey d "end_time" = false) := by
  have hdt : dictTruthy ex.specific_slot = true := by
    rw [hd]; simpa [dictTruthy] using hne
  refine ⟨?_, ?_, ?_⟩
  · unfold applySlotChoice
    rw [if_pos hdt, hd]
    exact ⟨rfl, rfl⟩
  · intro a hma
    unfold backfillSlot
    rw [if_pos (by simp [het, hty]), hma]
    exact ⟨rfl, rfl, rfl⟩
  · intro hma
    unfold backfillSlot
    rw [if_pos (by simp [het, hty]), hma]
    exact ⟨rfl, het⟩

def c4St : ConversationState :=
  { session_id := "s4", phase := Phase.showing_slots, messages := [],
    patient_info := {},
    booking_details := { appointment_type := some "general_consultation" },
    collected_info := {} }

def c4Ex : Extracted :=
  { specific_slot := some [("date", "2025-01-06"), ("start_time", "09:00")] }

/-- Closed instance of C4: an extracted date and start time with no end
time is backfilled from the schedule and stored with end time and
duration. -/
theorem c4_witness :
    (applySlotChoice wSched c4St c4Ex).booking_details.selected_slot =
      some [("day", "monday"), ("date", "2025-01-06"), ("start_time", "09:00"),
            ("end_time", "09:30"), ("duration", "30")] ∧
    (applySlotChoice wSched c4St c4Ex).phase = Phase.collecting_info := by
  have h := c4_specific_slot_backfill wSched c4St c4Ex
    [("date", "2025-01-06"), ("start_time", "09:00")] rfl (by decide) (by decide)
    (by decide)
  have hm := (h.2.1 ⟨"monday", "2025-01-06", "09:00", "09:30", 30⟩ (by decide)).1
  refine ⟨?_, h.1.2⟩
  rw [h.1.1, hm]
  rfl

/-! ## Frame lemmas for the chat step -/

theorem applyRestart_of_not (st : ConversationState) (msg : String)
    (h : ¬(st.phase = Phase.complete ∧
      restart_keywords.any (fun w => pyIn w (pyLower msg)) = true)) :
    applyRestart st msg = st := by
  unfold applyRestart
  rw [if_neg h]

theorem applySlotChoice_patient (sched : Schedule) (st : ConversationState)
    (ex : Extracted) : (applySlotChoice sched st ex).patient_info = st.patient_info := by
  unfold applySlotChoice
  split
  · rfl
  · split
    · split
      · rfl
      · split
        · split <;> rfl
        · rfl
    · rfl

theorem chatStep_state_patient (sched : Schedule) (st0 : ConversationState)
    (msg : String) (ia : IntentAnalysis) (reply bid code now : String) :
    (chatStep sched st0 msg ia reply bid code now).state.patient_info =
      (postMerge sched st0 msg ia now).patient_info := by
  simp only [chatStep]
  split
  · split <;> first | rfl | (split <;> rfl)
  · rfl

theorem chatStep_state_selected (sched : Schedule) (st0 : ConversationState)
    (msg : String) (ia : IntentAnalysis) (reply bid code now : String) :
    (chatStep sched st0 msg ia reply bid code now).state.booking_details.selected_slot =
      (postMerge sched st0 msg ia now).booking_details.selected_slot := by
  simp only [chatStep]
  split
  · split <;> first | rfl | (split <;> rfl)
  · rfl

theorem chatStep_booking_can (sched : Schedule) (st0 : ConversationState)
    (msg : String) (ia : IntentAnalysis) (reply bid code now : String)
    (hb : (chatStep sched st0 msg ia reply bid code now).booking.isSome = true) :
    can_book (postMerge sched st0 msg ia now) ia = true := by
  by_cases h : can_book (postMerge sched st0 msg ia now) ia = true
  · exact h
  · exfalso
    simp only [chatStep] at hb
    rw [if_neg h] at hb
    simp at hb

/-! ## C6: contact fields are first-value-wins within a cycle -/

/-- C6: within one booking cycle (no restart fires on the message), a
patient contact field that is already non-empty is left unchanged by
the chat step, whatever the oracle extracts for it. -/
theorem c6_contact_fields_first_value_wins (sched : Schedule)
    (st : ConversationState) (msg : String) (ia : IntentAnalysis)
    (reply bid code now : String)
    (hcycle : ¬(st.phase = Phase.complete ∧
      restart_keywords.any (fun w => pyIn w (pyLower msg)) = true)) :
    (optStrTruthy st.patient_info.name = true →
      (chatStep sched st msg ia reply bid code now).state.patient_info.name =
        st.patient_info.name) ∧
    (optStrTruthy st.patient_info.email = true →
      (chatStep sched st msg ia reply bid code now).state.patient_info.email =
        st.patient_info.email) ∧
    (optStrTruthy st.patient_info.phone = true →
      (chatStep sched st msg ia reply bid code now).state.patient_info.phone =
        st.patient_info.phone) := by
  have hre := applyRestart_of_not st msg hcycle
  have hpm : (postMerge sched st msg ia now).patient_info =
      (mergeExtracted (userAppended st msg now) ia.extracted).patient_info := by
    unfold postMerge
    rw [hre, applySlotChoice_patient]
  have hup : (userAppended st msg now).patient_info = st.patient_info := rfl
  refine ⟨?_, ?_, ?_⟩ <;> intro h
  · rw [chatStep_state_patient, hpm, mergeExtracted_name, hup, h]
    simp
  · rw [chatStep_state_patient, hpm, mergeExtracted_email, hup, h]
    simp
  · rw [chatStep_state_patient, hpm, mergeExtracted_phone, hup, h]
    simp

def c6St : ConversationState :=
  { session_id := "s6", phase := Phase.collecting_info, messages := [],
    patient_info := { name := some "Ada" },
    booking_details := {}, collected_info := {} }

def c6Ia : IntentAnalysis := { extracted := { name := some "Bob" } }

/-- Closed instance of C6: an already-set name survives a later
extraction of a different name. -/
theorem c6_witness :
    (chatStep [] c6St "my name is Bob" c6Ia "r" "B-6" "C-6" "T").state.patient_info.name =
      some "Ada" :=
  (c6_contact_fields_first_value_wins [] c6St "my name is Bob" c6Ia "r" "B-6" "C-6" "T"
    (by decide)).1 (by decide)

/-! ## C1: the finalize gate -/

def c1CexSt : ConversationState :=
  { session_id := "s1", phase := Phase.confirming, messages := [],
    patient_info := { name := some "Ada", email := some "ada@example.com" },
    booking_details :=
      { appointment_type := some "general_consultation",
        selected_slot := some [("day", "Monday"), ("date", "2025-01-06"),
                               ("start_time", "09:00"), ("end_time", "")] },
    collected_info := {} }

def c1CexIa : IntentAnalysis :=
  { extracted := { phone := some "555-0100" }, ready_to_book := true }

/-- C1 counterexample: a booking IS appended from a pre-message session
state whose phone is still empty (the same message supplies it) and
whose selected slot carries the `end_time` KEY with an empty string
value — so neither "phone non-empty in the session state" nor "slot
carries a non-empty end_time" is necessary for a ledger append; the
code only checks key presence, on the post-merge state. -/
theorem c1_counterexample :
    c1CexSt.patient_info.phone = none ∧
    (c1CexSt.booking_details.selected_slot.getD []).lookup "end_time" = some "" ∧
    (chatStep [] c1CexSt "please finalize" c1CexIa "ok" "B-1" "CODE-1" "T1").booking.isSome =
      true :=
  ⟨rfl, rfl, by decide⟩

/-- C1 amended: a booking is appended by a chat call only when, in the
session state at the finalize check (equally, the state stored after
the call), patient name, email and phone are all non-empty, the
selected slot is a non-empty dict, and that dict contains an
`end_time` key (whose value may be empty). -/
theorem c1_finalize_gate (sched : Schedule) (st : ConversationState) (msg : String)
    (ia : IntentAnalysis) (reply bid code now : String)
    (hb : (chatStep sched st msg ia reply bid code now).booking.isSome = true) :
    optStrTruthy
        (chatStep sched st msg ia reply bid code now).state.patient_info.name = true ∧
    optStrTruthy
        (chatStep sched st msg ia reply bid code now).state.patient_info.email = true ∧
    optStrTruthy
        (chatStep sched st msg ia reply bid code now).state.patient_info.phone = true ∧
    dictTruthy
        (chatStep sched st msg ia reply bid code now).state.booking_details.selected_slot =
      true ∧
    slotHasKey
        ((chatStep sched st msg ia reply bid code
          now).state.booking_details.selected_slot.getD []) "end_time" = true := by
  have hcb := chatStep_booking_can sched st msg ia reply bid code now hb
  unfold can_book at hcb
  simp only [Bool.and_eq_true] at hcb
  obtain ⟨⟨⟨⟨⟨hrd, hn⟩, he⟩, hp⟩, hdict⟩, hkey⟩ := hcb
  refine ⟨?_, ?_, ?_, ?_, ?_⟩
  · rw [chatStep_state_patient]; exact hn
  · rw [chatStep_state_patient]; exact he
  · rw [chatStep_state_patient]; exact hp
  · rw [chatStep_state_selected]; exact hdict
  · rw [chatStep_state_selected]; exact hkey

/-- Closed instance of amended C1 at the counterexample input: after
the append, the checked fields are all truthy. -/
theorem c1_witness :
    optStrTruthy
      (chatStep [] c1CexSt "please finalize" c1CexIa "ok" "B-1" "CODE-1"
        "T1").state.patient_info.phone = true :=
  (c1_finalize_gate [] c1CexSt "please finalize" c1CexIa "ok" "B-1" "CODE-1" "T1"
    (by decide)).2.2.1

/-! ## C10: slot list in a finalizing envelope -/

/-- C10: whenever the chat call returns an envelope with a non-null
booking, the envelope slot list is empty; when the envelope booking is
null, the envelope returns exactly the slot list computed inside the
call. -/
theorem c10_finalized_envelope_empty_slots (sched : Schedule)
    (st : ConversationState) (msg : String) (ia : IntentAnalysis)
    (reply bid code now : String) (env : Envelope)
    (he : (chatStep sched st msg ia reply bid code now).envelope = some env) :
    (env.booking.isSome = true → env.available_slots = []) ∧
    (env.booking = none →
      env.available_slots =
        (chatStep sched st msg ia reply bid code now).computed_slots) := by
  simp only [chatStep] at he ⊢
  split at he
  · split at he
    · split at he
      · exact absurd he (by simp)
      · simp only [Option.some.injEq] at he
        subst he
        exact ⟨fun _ => rfl, fun hbn => absurd hbn (by simp)⟩
    · exact absurd he (by simp)
  · next hcb =>
      simp only [Option.some.injEq] at he
      subst he
      refine ⟨fun hbs => absurd hbs (by simp), fun _ => ?_⟩
      rw [if_neg hcb]

def c10St : ConversationState :=
  { session_id := "s10", phase := Phase.confirming, messages := [],
    patient_info := { name := some "Ada", email := some "ada@example.com",
                      phone := some "555-0100" },
    booking_details :=
      { appointment_type := some "general_consultation",
        selected_slot := some [("day", "monday"), ("date", "2025-01-06"),
                               ("start_time", "09:00"), ("end_time", "09:30")] },
    collected_info := {} }

def c10Ia : IntentAnalysis :=
  { next_action := some "show_slots", ready_to_book := true }

/-- Closed instance of C10: a call that both computes a non-empty slot
list and finalizes a booking still responds with an empty slot list. -/
theorem c10_witness :
    ((chatStep wSched c10St "yes" c10Ia "r" "B-10" "CODE-10" "T").envelope.map
      (fun e => e.available_slots)) = some [] ∧
    ((chatStep wSched c10St "yes" c10Ia "r" "B-10" "CODE-10" "T").envelope.map
      (fun e => e.booking.isSome)) = some true ∧
    (chatStep wSched c10St "yes" c10Ia "r" "B-10" "CODE-10" "T").computed_slots ≠ [] := by
  cases h : (chatStep wSched c10St "yes" c10Ia "r" "B-10" "CODE-10" "T").envelope with
  | none => exact absurd h (by decide)
  | some env =>
    have hb : env.booking.isSome = true := by
      have hmap : ((chatStep wSched c10St "yes" c10Ia "r" "B-10" "CODE-10" "T").envelope.map
          (fun e => e.booking.isSome)) = some true := by decide
      rw [h] at hmap
      simpa using hmap
    have h1 := (c10_finalized_envelope_empty_slots wSched c10St "yes" c10Ia "r" "B-10"
      "CODE-10" "T" env h).1 hb
    refine ⟨?_, ?_, by decide⟩
    · simp [h1]
    · simp [hb]

end Booker
